import Mathlib

/-!
Shallow embedding of the sotu-factcheck-prototype pipeline (Node.js, `src/`):
the fact-check client's verdict normalizer, the policy engine, the claim
lifecycle store (`updateClaimState` / `emitEvent` in `server.mjs`), the
approve-output endpoint decision, the Gemini verifier post-processing and
error handling, the reconnect backoff computation, and the claim detector.

JavaScript values are modelled as follows: numbers are rationals (`ℚ`),
possibly-undefined fields are `Option`, strings are Lean `String` (with
`List Char` for the character-level operations), and `Number.isInteger`
becomes "the rational has denominator 1".  Side effects (SSE broadcast,
activity logging, HTTP) are outside the model; the store mutation and the
outgoing-event enrichment are modelled as pure state transformers.
-/

/-- JavaScript `\s` whitespace test, restricted to the ASCII whitespace that
can occur in the strings this code handles. -/
def isJsWs (c : Char) : Bool :=
  c = ' ' || c = '\t' || c = '\n' || c = '\r'

/-- One step of `String.replace(/\s+/g, ' ')`: the flag records whether the
previous character was part of a whitespace run already emitted as `' '`. -/
def collapseWsAux : List Char → Bool → List Char
  | [], _ => []
  | c :: rest, prevWs =>
    if isJsWs c then
      if prevWs then collapseWsAux rest true
      else ' ' :: collapseWsAux rest true
    else c :: collapseWsAux rest false

/-- JavaScript `String.replace(/\s+/g, ' ')`. -/
def collapseWs (l : List Char) : List Char :=
  collapseWsAux l false

/-- JavaScript `String.trim()`. -/
def trimWs (l : List Char) : List Char :=
  ((l.dropWhile isJsWs).reverse.dropWhile isJsWs).reverse

/-- JavaScript `String.toLowerCase()` (ASCII). -/
def lowerList (l : List Char) : List Char :=
  l.map Char.toLower

/-- JavaScript `Math.min` on rationals (the order-instance `min` does not
reduce in the kernel, so the conditional is spelled out). -/
def jsMin (a b : ℚ) : ℚ :=
  if a ≤ b then a else b

/-- JavaScript `Math.max` on rationals. -/
def jsMax (a b : ℚ) : ℚ :=
  if a ≤ b then b else a

/-- JavaScript `Math.floor` on rationals (`Rat.floor`, spelled out so that it
reduces in the kernel). -/
def jsFloor (q : ℚ) : ℤ :=
  q.num / q.den

/-- Does `hay` start with `pat`? -/
def listStartsWith : List Char → List Char → Bool
  | _, [] => true
  | [], _ :: _ => false
  | h :: hs, p :: ps => h = p && listStartsWith hs ps

/-- JavaScript `hay.includes(pat)` (substring containment). -/
def containsSub : List Char → List Char → Bool
  | [], pat => pat.isEmpty
  | h :: rest, pat => listStartsWith (h :: rest) pat || containsSub rest pat

/-- `compactWhitespace` from `factCheckClient.mjs`: collapse interior
whitespace runs to single spaces and trim the ends. -/
def compactWhitespace (l : List Char) : List Char :=
  trimWs (collapseWs l)

/-- The false-bucket vocabulary of `normalizeVerdict` in `factCheckClient.mjs`,
in source order. -/
def normalizeVerdictFalseWords : List (List Char) :=
  ["pants on fire", "not true", "debunked", "no evidence", "fake", "hoax",
   "fabricated", "bogus", "incorrect", "false"].map String.toList

/-- The misleading-bucket vocabulary of `normalizeVerdict`, in source order. -/
def normalizeVerdictMisleadingWords : List (List Char) :=
  ["misleading", "mostly false", "partly false", "half true", "mixed",
   "out of context", "missing context", "needs context", "partly true"].map String.toList

/-- The true-bucket vocabulary of `normalizeVerdict`, in source order. -/
def normalizeVerdictTrueWords : List (List Char) :=
  ["mostly true", "true", "correct", "accurate", "authentic"].map String.toList

/-- `normalizeVerdict` from `factCheckClient.mjs`: lowercase and compact the
textual rating, then test the false, misleading and true vocabularies in that
order by substring containment; anything else is `unverified`. -/
def normalizeVerdict (textualRating : String) : String :=
  let rating := compactWhitespace (lowerList textualRating.toList)
  if rating = [] then "unverified"
  else if normalizeVerdictFalseWords.any (fun w => containsSub rating w) then "false"
  else if normalizeVerdictMisleadingWords.any (fun w => containsSub rating w) then "misleading"
  else if normalizeVerdictTrueWords.any (fun w => containsSub rating w) then "true"
  else "unverified"

/-! ### Policy engine (`policyEngine.mjs`) and claim snapshots (`server.mjs`) -/

/-- A fact-check source reference as stored on a claim snapshot.  Fields are
optional because the JavaScript objects may omit any of them. -/
structure Source where
  publisher : Option String := none
  url : Option String := none
  title : Option String := none
  textualRating : Option String := none
  claimReviewed : Option String := none
  reviewDate : Option String := none
deriving DecidableEq, Repr

/-- A claim snapshot as stored in the `claims` map of `server.mjs`.  Optional
fields model possibly-undefined JavaScript properties; the last block holds
the derived policy fields written back by `withPolicy`. -/
structure ClaimRow where
  claimId : String := ""
  runId : Option String := none
  claim : Option String := none
  status : Option String := none
  verdict : Option String := none
  confidence : Option ℚ := none
  reasons : Option (List String) := none
  summary : Option String := none
  sources : Option (List Source) := none
  requiresProducerApproval : Option Bool := none
  claimCategory : Option String := none
  claimTypeTag : Option String := none
  claimTypeConfidence : Option ℚ := none
  googleEvidenceState : Option String := none
  fredEvidenceState : Option String := none
  fredEvidenceSummary : Option String := none
  fredEvidenceSources : Option (List Source) := none
  correctedClaim : Option String := none
  aiSummary : Option String := none
  aiVerdict : Option String := none
  aiConfidence : Option ℚ := none
  evidenceBasis : Option String := none
  googleFcVerdict : Option String := none
  googleFcConfidence : Option ℚ := none
  googleFcSummary : Option String := none
  chunkStartSec : Option ℚ := none
  chunkStartClock : Option String := none
  outputApprovalState : Option String := none
  outputPackageStatus : Option String := none
  outputPackageId : Option String := none
  outputPackageError : Option String := none
  renderStatus : Option String := none
  renderJobId : Option String := none
  artifactUrl : Option String := none
  renderError : Option String := none
  approvedAt : Option String := none
  approvedVersion : Option ℚ := none
  rejectedAt : Option String := none
  detectedAt : Option String := none
  updatedAt : Option String := none
  version : ℕ := 1
  policyThreshold : Option ℚ := none
  independentSourceCount : Option ℕ := none
  evidenceConflict : Option Bool := none
  evidenceStatus : Option String := none
  approvalEligibility : Option Bool := none
  approvalBlockReason : Option String := none
  exportEligibility : Option Bool := none
  exportBlockReason : Option String := none
deriving DecidableEq, Repr

/-- The record returned by `evaluateClaimPolicy`. -/
structure PolicyFields where
  claimTypeTag : String
  claimTypeConfidence : ℚ
  policyThreshold : ℚ
  independentSourceCount : ℕ
  evidenceConflict : Bool
  evidenceStatus : String
  approvalEligibility : Bool
  approvalBlockReason : Option String
  exportEligibility : Bool
  exportBlockReason : Option String
deriving DecidableEq, Repr

/-- `normalizeTag` from `policyEngine.mjs`. -/
def normalizeTag (tag : Option String) : String :=
  match tag with
  | some s =>
    if s = "numeric_factual" || s = "simple_policy" || s = "other" then s else "other"
  | none => "other"

/-- `TAG_THRESHOLDS` from `policyEngine.mjs` (looked up with a normalized
tag, which is always one of the three keys). -/
def tagThreshold (tag : String) : ℚ :=
  if tag = "numeric_factual" then 3/5
  else if tag = "simple_policy" then 3/4
  else 4/5

/-- `Number.prototype.toFixed(2)` followed by `Number(...)`, modelled as
rounding to the nearest hundredth. -/
def round2 (q : ℚ) : ℚ :=
  (jsFloor (q * 100 + 1/2) : ℚ) / 100

/-- `ratingBucket` from `policyEngine.mjs`.  `none` models an absent
`textualRating` (the JavaScript default parameter makes it the empty string,
and `String(null) = "null"` matches no vocabulary word either, so both land
in `unverified`). -/
def ratingBucket (text : Option String) : String :=
  match text with
  | none => "unverified"
  | some s =>
    let rating := lowerList s.toList
    if rating = [] then "unverified"
    else if containsSub rating "false".toList || containsSub rating "incorrect".toList ||
        containsSub rating "pants on fire".toList then "false"
    else if containsSub rating "misleading".toList || containsSub rating "mixed".toList ||
        containsSub rating "partly false".toList || containsSub rating "half true".toList ||
        containsSub rating "mostly false".toList then "misleading"
    else if containsSub rating "true".toList || containsSub rating "correct".toList ||
        containsSub rating "mostly true".toList then "supported"
    else "unverified"

/-- `countIndependentSources` from `policyEngine.mjs`: distinct non-empty
lowercased trimmed `publisher || url` keys. -/
def countIndependentSources (sources : List Source) : ℕ :=
  (((sources.map fun src =>
      let publisher := trimWs (lowerList (src.publisher.getD "").toList)
      let url := trimWs (lowerList (src.url.getD "").toList)
      if publisher ≠ [] then publisher else url).filter
    fun key => key ≠ []).dedup).length

/-- `hasConflictingEvidence` from `policyEngine.mjs`: at least two distinct
classified buckets across the sources' textual ratings. -/
def hasConflictingEvidence (sources : List Source) : Bool :=
  (((sources.map fun src => ratingBucket src.textualRating).filter
    fun bucket => bucket ≠ "unverified").dedup).length > 1

/-- `evidenceStatusForClaim` from `policyEngine.mjs`. -/
def evidenceStatusForClaim (claim : ClaimRow) (independentSourceCount : ℕ)
    (evidenceConflict : Bool) : String :=
  let status := claim.status.getD ""
  if status = "pending_research" || status = "researching" then "researching"
  else
    let googleState := claim.googleEvidenceState.getD "none"
    if googleState = "error" then "provider_degraded"
    else if claim.claimCategory = some "economic" then
      let fredState := claim.fredEvidenceState.getD "not_applicable"
      if fredState = "error" then "provider_degraded"
      else if fredState ≠ "matched" ∧ independentSourceCount < 1 then "insufficient"
      else if evidenceConflict then "conflicted"
      else "sufficient"
    else if independentSourceCount < 1 then "insufficient"
    else if evidenceConflict then "conflicted"
    else "sufficient"

/-- `reasonFromEvidenceStatus` from `policyEngine.mjs`. -/
def reasonFromEvidenceStatus (status : String) : Option String :=
  if status = "researching" then some "still_researching"
  else if status = "provider_degraded" then some "provider_degraded"
  else if status = "insufficient" then some "insufficient_sources"
  else if status = "conflicted" then some "conflicted_sources"
  else none

/-- `evaluateClaimPolicy` from `policyEngine.mjs`. -/
def evaluateClaimPolicy (claim : ClaimRow) : PolicyFields :=
  let tag := normalizeTag claim.claimTypeTag
  let threshold := tagThreshold tag
  let confidence := claim.confidence.getD 0
  let sources := claim.sources.getD []
  let independentSourceCount := countIndependentSources sources
  let evidenceConflict := hasConflictingEvidence sources
  let evidenceStatus := evidenceStatusForClaim claim independentSourceCount evidenceConflict
  let statusStr := claim.status.getD ""
  let reason0 : Option String :=
    if claim.outputApprovalState = some "rejected" then some "rejected_locked"
    else if statusStr ≠ "researched" then
      if statusStr = "pending_research" || statusStr = "researching" then
        some "still_researching"
      else some "not_researched"
    else reasonFromEvidenceStatus evidenceStatus
  let approvalBlockReason : Option String :=
    if reason0 = none ∧ confidence < threshold then some "below_threshold" else reason0
  let approvalEligibility := approvalBlockReason = none
  let exportBlockReason : Option String :=
    if approvalBlockReason = none ∧ claim.outputApprovalState ≠ some "approved" then
      some "not_approved"
    else approvalBlockReason
  let exportEligibility := exportBlockReason = none
  { claimTypeTag := tag
    claimTypeConfidence := round2 ((claim.claimTypeConfidence.getD confidence))
    policyThreshold := threshold
    independentSourceCount := independentSourceCount
    evidenceConflict := evidenceConflict
    evidenceStatus := evidenceStatus
    approvalEligibility := decide approvalEligibility
    approvalBlockReason := approvalBlockReason
    exportEligibility := decide exportEligibility
    exportBlockReason := exportBlockReason }

/-- `withPolicy` from `server.mjs`: spread the snapshot and overwrite the
derived policy fields with a fresh evaluation. -/
def withPolicy (claim : ClaimRow) : ClaimRow :=
  let p := evaluateClaimPolicy claim
  { claim with
    claimTypeTag := some p.claimTypeTag
    claimTypeConfidence := some p.claimTypeConfidence
    policyThreshold := some p.policyThreshold
    independentSourceCount := some p.independentSourceCount
    evidenceConflict := some p.evidenceConflict
    evidenceStatus := some p.evidenceStatus
    approvalEligibility := some p.approvalEligibility
    approvalBlockReason := p.approvalBlockReason
    exportEligibility := some p.exportEligibility
    exportBlockReason := p.exportBlockReason }

/-! ### Claim lifecycle store and event fan-out (`server.mjs`) -/

/-- An incoming claim/pipeline event as consumed by `emitEvent` /
`updateClaimState`.  `atTime` is the event's `at` timestamp (`at` is a Lean
keyword).  `claimVersion` and `approvedVersion` are rationals so that the
`Number.isInteger` guards can be modelled faithfully. -/
structure ClaimEvent where
  type : String
  runId : Option String := none
  claimId : String := ""
  atTime : Option String := none
  claim : Option String := none
  status : Option String := none
  verdict : Option String := none
  confidence : Option ℚ := none
  reasons : Option (List String) := none
  summary : Option String := none
  sources : Option (List Source) := none
  requiresProducerApproval : Option Bool := none
  claimCategory : Option String := none
  claimTypeTag : Option String := none
  claimTypeConfidence : Option ℚ := none
  googleEvidenceState : Option String := none
  fredEvidenceState : Option String := none
  fredEvidenceSummary : Option String := none
  fredEvidenceSources : Option (List Source) := none
  correctedClaim : Option String := none
  aiSummary : Option String := none
  aiVerdict : Option String := none
  aiConfidence : Option ℚ := none
  evidenceBasis : Option String := none
  googleFcVerdict : Option String := none
  googleFcConfidence : Option ℚ := none
  googleFcSummary : Option String := none
  chunkStartSec : Option ℚ := none
  chunkStartClock : Option String := none
  approvedAt : Option String := none
  approvedVersion : Option ℚ := none
  rejectedAt : Option String := none
  claimVersion : Option ℚ := none
  packageId : Option String := none
  renderJobId : Option String := none
  artifactUrl : Option String := none
  error : Option String := none
deriving DecidableEq, Repr

/-- The server's module-level mutable state relevant to the claim store:
`currentRunId`, `eventSeq` and the `claims` map (modelled as a function). -/
structure ServerState where
  currentRunId : Option String := none
  eventSeq : ℕ := 0
  claims : String → Option ClaimRow := fun _ => none

/-- `claims.set(key, value)` on the map-as-function. -/
def setClaim (m : String → Option ClaimRow) (key : String) (value : ClaimRow) :
    String → Option ClaimRow :=
  fun id => if id = key then some value else m id

/-- `isClaimEventType` from `server.mjs` (`type.startsWith('claim.')`,
written with the executable character-list test). -/
def isClaimEventType (t : String) : Bool :=
  listStartsWith t.toList "claim.".toList

/-- The run-id filter at the top of `updateClaimState`: drop claim events
whose (truthy) `runId` differs from the (truthy) `currentRunId`. -/
def gateDrop (s : ServerState) (e : ClaimEvent) : Bool :=
  match s.currentRunId, e.runId with
  | some currentRun, some eventRun => isClaimEventType e.type && eventRun ≠ currentRun
  | _, _ => false

/-- `Number.isInteger` on a possibly-absent JavaScript number. -/
def jsIsInteger (q : Option ℚ) : Bool :=
  match q with
  | none => false
  | some v => v.den = 1

/-- `nextClaimVersion` from `server.mjs` (the stored `version` is always a
natural number in this model, so the parse always succeeds). -/
def nextClaimVersion (claim : ClaimRow) : ℚ :=
  if claim.version ≥ 1 then (claim.version : ℚ) + 1 else 1

/-- The fresh snapshot inserted by the `claim.detected` branch of
`updateClaimState`. -/
def claimDetectedRow (e : ClaimEvent) : ClaimRow :=
  { claimId := e.claimId
    runId := e.runId
    claim := e.claim
    status := e.status
    verdict := e.verdict
    confidence := e.confidence
    reasons := e.reasons
    claimCategory := some (e.claimCategory.getD "general")
    claimTypeTag := some (e.claimTypeTag.getD "other")
    claimTypeConfidence := some ((e.claimTypeConfidence <|> e.confidence).getD 0)
    googleEvidenceState := some "none"
    fredEvidenceState :=
      some (if e.claimCategory = some "economic" then "ambiguous" else "not_applicable")
    fredEvidenceSummary :=
      some (if e.claimCategory = some "economic" then
        "Awaiting economic evidence enrichment."
      else "No economic indicator mapping required for this claim.")
    fredEvidenceSources := some []
    correctedClaim := none
    aiSummary := none
    aiVerdict := none
    aiConfidence := none
    evidenceBasis := none
    googleFcVerdict := none
    googleFcConfidence := none
    googleFcSummary := none
    chunkStartSec := e.chunkStartSec
    chunkStartClock := e.chunkStartClock
    sources := some []
    summary := none
    outputApprovalState := some "pending"
    outputPackageStatus := some "none"
    outputPackageId := none
    outputPackageError := none
    renderStatus := some "none"
    renderJobId := none
    artifactUrl := none
    renderError := none
    approvedAt := none
    approvedVersion := none
    rejectedAt := none
    detectedAt := e.atTime
    updatedAt := e.atTime
    version := 1 }

/-- The merged snapshot built by the `claim.updated` branch.  When the claim
id is unknown, the code synthesizes `{claimId, claim: event.claim,
detectedAt: event.at}` as `existing`, so every other existing field reads as
undefined. -/
def claimUpdatedRow (s : ServerState) (e : ClaimEvent) : ClaimRow :=
  let ex? := s.claims e.claimId
  let wasApproved := (ex?.bind (·.outputApprovalState)) = some "approved"
  { claimId := e.claimId
    claim := match ex? with | some x => x.claim | none => e.claim
    detectedAt := match ex? with | some x => x.detectedAt | none => e.atTime
    reasons := ex?.bind (·.reasons)
    chunkStartSec := ex?.bind (·.chunkStartSec)
    chunkStartClock := ex?.bind (·.chunkStartClock)
    rejectedAt := ex?.bind (·.rejectedAt)
    runId := e.runId <|> (ex?.bind (·.runId)) <|> s.currentRunId
    status := e.status
    verdict := e.verdict
    confidence := e.confidence
    summary := e.summary
    sources := e.sources
    requiresProducerApproval := e.requiresProducerApproval
    claimCategory := some ((e.claimCategory <|> ex?.bind (·.claimCategory)).getD "general")
    claimTypeTag := some ((e.claimTypeTag <|> ex?.bind (·.claimTypeTag)).getD "other")
    claimTypeConfidence :=
      some ((e.claimTypeConfidence <|> ex?.bind (·.claimTypeConfidence) <|> e.confidence).getD 0)
    googleEvidenceState :=
      some ((e.googleEvidenceState <|> ex?.bind (·.googleEvidenceState)).getD "none")
    fredEvidenceState :=
      some ((e.fredEvidenceState <|> ex?.bind (·.fredEvidenceState)).getD "not_applicable")
    fredEvidenceSummary := e.fredEvidenceSummary <|> ex?.bind (·.fredEvidenceSummary)
    fredEvidenceSources :=
      some ((e.fredEvidenceSources <|> ex?.bind (·.fredEvidenceSources)).getD [])
    correctedClaim := e.correctedClaim <|> ex?.bind (·.correctedClaim)
    aiSummary := e.aiSummary <|> ex?.bind (·.aiSummary)
    aiVerdict := e.aiVerdict <|> ex?.bind (·.aiVerdict)
    aiConfidence := e.aiConfidence <|> ex?.bind (·.aiConfidence)
    evidenceBasis := e.evidenceBasis <|> ex?.bind (·.evidenceBasis)
    googleFcVerdict := e.googleFcVerdict <|> ex?.bind (·.googleFcVerdict)
    googleFcConfidence := e.googleFcConfidence <|> ex?.bind (·.googleFcConfidence)
    googleFcSummary := e.googleFcSummary <|> ex?.bind (·.googleFcSummary)
    outputApprovalState :=
      if wasApproved then some "pending"
      else some ((ex?.bind (·.outputApprovalState)).getD "pending")
    approvedAt := if wasApproved then none else ex?.bind (·.approvedAt)
    approvedVersion := if wasApproved then none else ex?.bind (·.approvedVersion)
    outputPackageStatus :=
      if wasApproved then some "none"
      else some ((ex?.bind (·.outputPackageStatus)).getD "none")
    outputPackageId := if wasApproved then none else ex?.bind (·.outputPackageId)
    outputPackageError := if wasApproved then none else ex?.bind (·.outputPackageError)
    renderStatus :=
      if wasApproved then some "none"
      else some ((ex?.bind (·.renderStatus)).getD "none")
    renderJobId := if wasApproved then none else ex?.bind (·.renderJobId)
    artifactUrl := if wasApproved then none else ex?.bind (·.artifactUrl)
    renderError := if wasApproved then none else ex?.bind (·.renderError)
    updatedAt := e.atTime
    version := (match ex? with | some x => x.version | none => 1) + 1 }

/-- The version gate shared by the `claim.output_package_*` and
`claim.render_*` branches: skip when both the event's `claimVersion` and the
stored `approvedVersion` are integers and they differ. -/
def packageVersionMismatch (existing : ClaimRow) (e : ClaimEvent) : Bool :=
  jsIsInteger e.claimVersion && jsIsInteger existing.approvedVersion &&
    e.claimVersion ≠ existing.approvedVersion

/-- The render-job gate of `claim.render_ready` / `claim.render_failed`:
skip when both sides carry a (truthy) render job id and they differ. -/
def renderJobMismatch (existing : ClaimRow) (e : ClaimEvent) : Bool :=
  match existing.renderJobId, e.renderJobId with
  | some a, some b => a ≠ b
  | _, _ => false

/-- `updateClaimState` from `server.mjs`, translated branch by branch. -/
def updateClaimState (s : ServerState) (e : ClaimEvent) : ServerState :=
  if gateDrop s e then s
  else if e.type = "claim.detected" then
    { s with claims := setClaim s.claims e.claimId (withPolicy (claimDetectedRow e)) }
  else if e.type = "claim.researching" then
    match s.claims e.claimId with
    | none => s
    | some existing =>
      { s with claims := setClaim s.claims e.claimId (withPolicy
          { existing with
            status := some "researching"
            updatedAt := e.atTime
            version := existing.version + 1 }) }
  else if e.type = "claim.updated" then
    { s with claims := setClaim s.claims e.claimId (withPolicy (claimUpdatedRow s e)) }
  else if e.type = "claim.output_approved" then
    match s.claims e.claimId with
    | none => s
    | some existing =>
      { s with claims := setClaim s.claims e.claimId (withPolicy
          { existing with
            outputApprovalState := some "approved"
            approvedAt := e.approvedAt <|> e.atTime
            approvedVersion := e.approvedVersion <|> some (nextClaimVersion existing)
            rejectedAt := none
            updatedAt := e.atTime
            version := existing.version + 1 }) }
  else if e.type = "claim.output_rejected" then
    match s.claims e.claimId with
    | none => s
    | some existing =>
      { s with claims := setClaim s.claims e.claimId (withPolicy
          { existing with
            outputApprovalState := some "rejected"
            approvedAt := none
            approvedVersion := none
            rejectedAt := e.rejectedAt <|> e.atTime
            updatedAt := e.atTime
            version := existing.version + 1 }) }
  else if e.type = "claim.output_package_queued" then
    match s.claims e.claimId with
    | none => s
    | some existing =>
      if existing.outputApprovalState ≠ some "approved" then s
      else if packageVersionMismatch existing e then s
      else
        { s with claims := setClaim s.claims e.claimId (withPolicy
            { existing with
              outputPackageStatus := some "queued"
              outputPackageId := e.packageId <|> existing.outputPackageId
              outputPackageError := none
              updatedAt := e.atTime
              version := existing.version + 1 }) }
  else if e.type = "claim.output_package_ready" then
    match s.claims e.claimId with
    | none => s
    | some existing =>
      if existing.outputApprovalState ≠ some "approved" then s
      else if packageVersionMismatch existing e then s
      else
        { s with claims := setClaim s.claims e.claimId (withPolicy
            { existing with
              outputPackageStatus := some "ready"
              outputPackageId := e.packageId <|> existing.outputPackageId
              outputPackageError := none
              updatedAt := e.atTime
              version := existing.version + 1 }) }
  else if e.type = "claim.output_package_failed" then
    match s.claims e.claimId with
    | none => s
    | some existing =>
      if existing.outputApprovalState ≠ some "approved" then s
      else if packageVersionMismatch existing e then s
      else
        { s with claims := setClaim s.claims e.claimId (withPolicy
            { existing with
              outputPackageStatus := some "failed"
              outputPackageId := e.packageId <|> existing.outputPackageId
              outputPackageError := some (e.error.getD "Package generation failed")
              updatedAt := e.atTime
              version := existing.version + 1 }) }
  else if e.type = "claim.render_queued" then
    match s.claims e.claimId with
    | none => s
    | some existing =>
      if existing.outputApprovalState ≠ some "approved" then s
      else if packageVersionMismatch existing e then s
      else
        { s with claims := setClaim s.claims e.claimId (withPolicy
            { existing with
              renderStatus := some "queued"
              renderJobId := e.renderJobId <|> existing.renderJobId
              renderError := none
              updatedAt := e.atTime
              version := existing.version + 1 }) }
  else if e.type = "claim.render_ready" then
    match s.claims e.claimId with
    | none => s
    | some existing =>
      if existing.outputApprovalState ≠ some "approved" then s
      else if packageVersionMismatch existing e then s
      else if renderJobMismatch existing e then s
      else
        { s with claims := setClaim s.claims e.claimId (withPolicy
            { existing with
              renderStatus := some "ready"
              renderJobId := e.renderJobId <|> existing.renderJobId
              artifactUrl := e.artifactUrl <|> existing.artifactUrl
              renderError := none
              updatedAt := e.atTime
              version := existing.version + 1 }) }
  else if e.type = "claim.render_failed" then
    match s.claims e.claimId with
    | none => s
    | some existing =>
      if existing.outputApprovalState ≠ some "approved" then s
      else if packageVersionMismatch existing e then s
      else if renderJobMismatch existing e then s
      else
        { s with claims := setClaim s.claims e.claimId (withPolicy
            { existing with
              renderStatus := some "failed"
              renderJobId := e.renderJobId <|> existing.renderJobId
              renderError := some (e.error.getD "Render job failed")
              updatedAt := e.atTime
              version := existing.version + 1 }) }
  else s

/-- The outgoing enriched event assembled by `emitEvent`: the assigned `seq`
and, for claim events with a known snapshot, the embedded snapshot
(`claimSnapshotEventFields` spreads the full snapshot, version included,
over the outgoing record). -/
structure OutgoingEvent where
  seq : ℕ
  type : String
  claimId : String
  snapshot : Option ClaimRow
deriving DecidableEq, Repr

/-- `emitEvent` from `server.mjs`, reduced to its state effects: bump
`eventSeq`, adopt the run id on `pipeline.started`, run `updateClaimState`,
and embed the (post-update) snapshot into the outgoing claim event.  History
trimming, SSE writes and activity logging are outside the model. -/
def emitEvent (s : ServerState) (e : ClaimEvent) : ServerState × OutgoingEvent :=
  let seq := s.eventSeq + 1
  let s1 : ServerState :=
    if e.type = "pipeline.started" then
      { s with eventSeq := seq, currentRunId := e.runId }
    else { s with eventSeq := seq }
  let s2 := updateClaimState s1 e
  let snapshot :=
    if isClaimEventType e.type && e.claimId ≠ "" then s2.claims e.claimId else none
  (s2, { seq := seq, type := e.type, claimId := e.claimId, snapshot := snapshot })

/-- Run `emitEvent` over a list of events, collecting the outgoing events. -/
def processEvents (s : ServerState) : List ClaimEvent → ServerState × List OutgoingEvent
  | [] => (s, [])
  | e :: rest =>
    let (s', out) := emitEvent s e
    let (s'', outs) := processEvents s' rest
    (s'', out :: outs)

/-! ### Approve-output endpoint decision (`server.mjs`) -/

/-- `policyBlockMessage` from `server.mjs`.  Only the `claimTypeTag` of the
claim argument is read (for the `below_threshold` message). -/
def policyBlockMessage (reason : String) (claimTypeTag : Option String) : String :=
  if reason = "still_researching" then
    "Claim is still being researched. Approve after fact-check completes."
  else if reason = "not_researched" then
    "Claim must reach researched status before approval."
  else if reason = "provider_degraded" then
    "Evidence provider is degraded. Keep this claim unapproved until evidence recovers."
  else if reason = "insufficient_sources" then
    "Claim does not have enough independent evidence sources for approval."
  else if reason = "conflicted_sources" then
    "Evidence sources conflict. Manual adjudication is required before approval."
  else if reason = "below_threshold" then
    "Claim confidence is below policy threshold for tag=" ++ claimTypeTag.getD "other" ++ "."
  else if reason = "rejected_locked" then
    "Claim output was already rejected. Use a fresh claim update to re-approve."
  else if reason = "not_approved" then
    "Claim must be approved before package/render actions."
  else "Action blocked by fail-closed policy."

/-- Outcome of the approve-output handler once the claim exists and
`expectedVersion` matches. -/
inductive ApproveDecision where
  | alreadyApproved
  | blocked (httpStatus : ℕ) (message : String)
  | proceed
deriving DecidableEq, Repr

/-- The `approve-output` branch of the claim-action handler in `server.mjs`,
after the 404 and `expectedVersion` guards: an already-approved claim is a
200 no-op, an ineligible claim is answered 409 with the policy block
message, and otherwise the handler proceeds to emit `claim.output_approved`
and trigger the package/render collaborators (outside this model). -/
def approveOutputDecision (existing : ClaimRow) : ApproveDecision :=
  if existing.outputApprovalState = some "approved" then .alreadyApproved
  else
    let policy := withPolicy existing
    if policy.approvalEligibility.getD false = false then
      .blocked 409
        (policyBlockMessage (policy.approvalBlockReason.getD "blocked") policy.claimTypeTag)
    else .proceed

/-! ### Gemini verifier (`geminiVerifier.mjs`, the congress-aware revision) -/

/-- The `googleFc` evidence summary passed to the verifier. -/
structure FcEvidence where
  verdict : Option String := none
deriving DecidableEq, Repr

/-- A provider evidence summary (`fred` / `congress`) passed to the
verifier. -/
structure ProviderEvidence where
  state : Option String := none
deriving DecidableEq, Repr

/-- The evidence bundle handed to `verifyClaim` / `clampConfidence`. -/
structure Evidence where
  googleFc : Option FcEvidence := none
  fred : Option ProviderEvidence := none
  congress : Option ProviderEvidence := none
deriving DecidableEq, Repr

/-- `evidence.googleFc && evidence.googleFc.verdict && verdict !== 'unverified'`:
the verdict string must be present, truthy (non-empty) and classified. -/
def hasGoogleFc (e : Evidence) : Bool :=
  match e.googleFc with
  | some fc =>
    match fc.verdict with
    | some v => v ≠ "" && v ≠ "unverified"
    | none => false
  | none => false

/-- `evidence.fred && evidence.fred.state === 'matched'`. -/
def hasFred (e : Evidence) : Bool :=
  match e.fred with
  | some p => p.state = some "matched"
  | none => false

/-- `evidence.congress && evidence.congress.state === 'matched'`. -/
def hasCongress (e : Evidence) : Bool :=
  match e.congress with
  | some p => p.state = some "matched"
  | none => false

/-- The raw structured output parsed from the model response; fields are
optional or untyped in JavaScript, `none` models an absent or wrongly-typed
value. -/
structure RawVerdict where
  aiVerdict : Option String := none
  aiConfidence : Option ℚ := none
  correctedClaim : Option String := none
  aiSummary : Option String := none
  evidenceBasis : Option String := none
deriving DecidableEq, Repr

/-- The verifier's result shape. -/
structure VerifierResult where
  aiVerdict : String
  aiConfidence : ℚ
  correctedClaim : Option String
  aiSummary : Option String
  evidenceBasis : Option String
deriving DecidableEq, Repr

/-- `SAFE_FALLBACK` from `geminiVerifier.mjs`. -/
def SAFE_FALLBACK : VerifierResult :=
  { aiVerdict := "unverified"
    aiConfidence := 0
    correctedClaim := none
    aiSummary := none
    evidenceBasis := none }

/-- JavaScript `s.trim()` on a Lean string. -/
def strTrim (s : String) : String :=
  ⟨trimWs s.toList⟩

/-- JavaScript `s.slice(0, 484)`. -/
def slice484 (s : String) : String :=
  ⟨s.toList.take 484⟩

/-- `normalizeResult` from `geminiVerifier.mjs`. -/
def normalizeResult (raw : RawVerdict) : VerifierResult :=
  let verdict :=
    match raw.aiVerdict with
    | some v => if v = "true" || v = "false" || v = "misleading" || v = "unverified"
        then v else "unverified"
    | none => "unverified"
  let confidence :=
    match raw.aiConfidence with
    | some q => jsMax 0 (jsMin 1 q)
    | none => 0
  let correctedClaim :=
    match raw.correctedClaim with
    | some c => if strTrim c ≠ "" then some (slice484 (strTrim c)) else none
    | none => none
  let aiSummary :=
    match raw.aiSummary with
    | some c => if strTrim c ≠ "" then some (slice484 (strTrim c)) else none
    | none => none
  let evidenceBasis :=
    match raw.evidenceBasis with
    | some b => if b = "fact_check_match" || b = "fred_data" || b = "congress_data" ||
        b = "general_knowledge" || b = "mixed" then some b else some "general_knowledge"
    | none => some "general_knowledge"
  { aiVerdict := verdict
    aiConfidence := confidence
    correctedClaim := correctedClaim
    aiSummary := aiSummary
    evidenceBasis := evidenceBasis }

/-- `clampConfidence` from `geminiVerifier.mjs`: with no classified evidence
source, cap `aiConfidence` at 0.65. -/
def clampConfidence (result : VerifierResult) (e : Evidence) : VerifierResult :=
  if !hasGoogleFc e && !hasFred e && !hasCongress e && result.aiConfidence > 13/20 then
    { result with aiConfidence := 13/20 }
  else result

/-- The claim-text argument of `verifyClaim`: a JavaScript value that is
either a string or something else. -/
inductive JsText where
  | str (s : String)
  | nonString
deriving DecidableEq, Repr

/-- The guard `!claimText || typeof claimText !== 'string' || !claimText.trim()`
(negated): the claim text is accepted when it is a non-empty string whose
trim is non-empty. -/
def claimTextAccepted : JsText → Bool
  | .str s => s ≠ "" && strTrim s ≠ ""
  | .nonString => false

/-- The body of a 2xx model response, as far as `verifyClaim` inspects it:
the joined candidate text (absent when the candidate parts are missing) and
the result of `JSON.parse` on that text. -/
structure GeminiBody where
  outputText : Option String := none
  parsedOutput : Option RawVerdict := none
deriving DecidableEq, Repr

/-- The outcome of the `fetch` call inside `verifyClaim`: an `AbortError`, a
different error, or an HTTP response with status flag `ok` and a body whose
JSON parse may fail (`none`). -/
inductive FetchOutcome where
  | abortError
  | otherError
  | success (ok : Bool) (body : Option GeminiBody)
deriving DecidableEq, Repr

/-- `verifyClaim` from `geminiVerifier.mjs`, with the network interaction
abstracted into a `FetchOutcome`.  `Except.error ()` models the rethrown
`AbortError`; every other failure returns the safe fallback. -/
def verifyClaim (apiKey : Option String) (claimText : JsText) (evidence : Evidence)
    (fetchOutcome : FetchOutcome) : Except Unit VerifierResult :=
  if apiKey.getD "" = "" then .ok SAFE_FALLBACK
  else if !claimTextAccepted claimText then .ok SAFE_FALLBACK
  else
    match fetchOutcome with
    | .abortError => .error ()
    | .otherError => .ok SAFE_FALLBACK
    | .success ok body =>
      if !ok then .ok SAFE_FALLBACK
      else
        match body with
        | none => .ok SAFE_FALLBACK
        | some b =>
          match b.outputText with
          | none => .ok SAFE_FALLBACK
          | some rawText =>
            if strTrim rawText = "" then .ok SAFE_FALLBACK
            else
              match b.parsedOutput with
              | none => .ok SAFE_FALLBACK
              | some parsed => .ok (clampConfidence (normalizeResult parsed) evidence)

/-! ### Reconnect backoff and detection threshold (`pipeline.mjs`) -/

/-- `computeReconnectDelayMs` from `pipeline.mjs`.  `r ∈ [0, 1)` stands for
the `Math.random()` draw, so `jitter = ⌊r · min(500, max(80, backoff·0.2))⌋`
is a uniformly random integer in `[0, min(500, max(80, backoff·0.2)))`. -/
def computeReconnectDelayMs (ingestRetryBaseMs ingestRetryMaxMs attemptNo : ℕ)
    (r : ℚ) : ℚ :=
  let exponent := attemptNo - 1
  let backoff : ℕ := min ingestRetryMaxMs (ingestRetryBaseMs * 2 ^ exponent)
  let jitter : ℤ := jsFloor (r * jsMin 500 (jsMax 80 ((backoff : ℚ) * (1/5))))
  jsMax 250 ((backoff : ℚ) + (jitter : ℚ))

/-- The `claimDetectionThreshold` configuration in `pipeline.mjs` (and the
matching `CLAIM_DETECTION_THRESHOLD` in `server.mjs`): clamp the configured
value to `[0.55, 0.9]`, defaulting to 0.62. -/
def claimDetectionThreshold (configured : Option ℚ) : ℚ :=
  jsMax (11/20) (jsMin (9/10) (configured.getD (62/100)))

/-! ### Claim detector (`claimDetector.mjs`) -/

/-- `CLAIM_KEYWORDS` from `claimDetector.mjs`. -/
def CLAIM_KEYWORDS : List (List Char) :=
  ["lowest", "highest", "best", "worst", "record", "ever", "million", "billion",
   "trillion", "percent", "inflation", "unemployment", "jobs", "deficit", "debt",
   "crime", "border", "tax", "wages", "gdp", "economy", "growth", "won", "lost",
   "victory", "defeated", "elected", "votes", "electoral", "swing", "majority",
   "unanimous", "landslide", "mandate", "signed", "enacted", "repealed",
   "executive order", "legislation", "bipartisan", "veto", "passed", "overturned",
   "first", "never", "most", "least", "greatest", "all-time", "troops",
   "withdrawal", "ceasefire", "sanctions", "alliance", "nato"].map String.toList

/-- `ECONOMIC_KEYWORDS` from `claimDetector.mjs`. -/
def ECONOMIC_KEYWORDS : List (List Char) :=
  ["inflation", "unemployment", "jobs", "wages", "gdp", "economy", "growth",
   "deficit", "debt", "tax", "federal reserve", "interest rate", "cpi",
   "labor force"].map String.toList

/-- `POLITICAL_KEYWORDS` from `claimDetector.mjs`. -/
def POLITICAL_KEYWORDS : List (List Char) :=
  ["won", "lost", "victory", "defeated", "elected", "votes", "electoral", "swing",
   "majority", "landslide", "mandate", "passed", "signed", "enacted", "repealed",
   "veto", "executive order", "legislation", "bipartisan", "congress", "senate",
   "house", "bill", "law", "nomination", "confirmed"].map String.toList

/-- The word alternatives of `COMPARATIVE_PATTERN`
(`\b(more|less|higher|lower|up|down|increase(?:d)?|decrease(?:d)?|than|fewer)\b`). -/
def comparativeWords : List (List Char) :=
  ["more", "less", "higher", "lower", "up", "down", "increase", "increased",
   "decrease", "decreased", "than", "fewer"].map String.toList

/-- A regex word character (`\w`): ASCII alphanumeric or underscore. -/
def isWordChar (c : Char) : Bool :=
  c.isAlphanum || c = '_'

/-- Split a character list into maximal runs of characters satisfying `p`
(runs of non-`p` characters are separators and are dropped). -/
def splitRuns (p : Char → Bool) : List Char → List (List Char)
  | [] => []
  | c :: rest =>
    if p c then
      match splitRuns p rest with
      | [] => [[c]]
      | tok :: toks =>
        match rest with
        | [] => [[c]]
        | r :: _ => if p r then (c :: tok) :: toks else [c] :: tok :: toks
    else splitRuns p rest

/-- `COMPARATIVE_PATTERN.test(lower)`: some maximal word-character run of the
lowercased sentence equals one of the comparative word alternatives (the
`\b` anchors make the regex match exactly the maximal `\w` runs). -/
def hasComparative (lower : List Char) : Bool :=
  (splitRuns isWordChar lower).any fun tok => comparativeWords.contains tok

/-- `sentence.split(/\s+/).length`: the number of maximal non-whitespace runs
(the sentences scored here are trimmed and non-empty, so no empty leading
fragment arises). -/
def wsTokenCount (sentence : List Char) : ℕ :=
  (splitRuns (fun c => !isJsWs c) sentence).length

/-- `scoreSentence` from `claimDetector.mjs`: returns the clamped score and
the reason tags in source order. -/
def scoreSentence (sentence : List Char) : ℚ × List String :=
  let lower := lowerList sentence
  let hasNumber := lower.any Char.isDigit
  let score1 : ℚ := if hasNumber then 9/20 else 0
  let reasons1 : List String := if hasNumber then ["contains_number"] else []
  let comparative := hasComparative lower
  let score2 := if comparative then score1 + 1/5 else score1
  let reasons2 := if comparative then reasons1 ++ ["contains_comparative"] else reasons1
  let keywordMatches := CLAIM_KEYWORDS.filter fun k => containsSub lower k
  let score3 :=
    if keywordMatches.length > 0 then
      score2 + jsMin (7/20) ((keywordMatches.length : ℚ) * (1/10))
    else score2
  let reasons3 :=
    if keywordMatches.length > 0 then reasons2 ++ ["contains_claim_keyword"] else reasons2
  let longEnough := wsTokenCount sentence ≥ 8
  let score4 := if longEnough then score3 + 1/10 else score3
  let reasons4 := if longEnough then reasons3 ++ ["sufficient_length"] else reasons3
  (jsMin 1 score4, reasons4)

/-- `categorizeClaim` from `claimDetector.mjs`. -/
def categorizeClaim (sentence : List Char) : String :=
  let lower := lowerList sentence
  if ECONOMIC_KEYWORDS.any (fun k => containsSub lower k) then "economic"
  else if POLITICAL_KEYWORDS.any (fun k => containsSub lower k) then "political"
  else "general"

/-- `classifyClaimType` from `claimDetector.mjs`. -/
def classifyClaimType (sentence : List Char) (reasons : List String) : String :=
  let lower := lowerList sentence
  let hasNumber := lower.any Char.isDigit || reasons.contains "contains_number"
  if hasNumber then "numeric_factual"
  else if (POLITICAL_KEYWORDS.any fun k => containsSub lower k) &&
      (reasons.contains "contains_claim_keyword" || reasons.contains "contains_comparative")
    then "numeric_factual"
  else if hasComparative lower || reasons.contains "contains_comparative" then "simple_policy"
  else "other"

/-- `splitSentences` from `claimDetector.mjs`: after collapsing whitespace,
split at each space preceded by `.`, `!` or `?` (the lookbehind split), then
trim and drop empties.  `acc` holds the current fragment reversed. -/
def splitSentencesAux : List Char → List Char → List (List Char)
  | [], acc => [acc.reverse]
  | c :: rest, acc =>
    if c = ' ' && (match acc with
        | p :: _ => p = '.' || p = '!' || p = '?'
        | [] => false) then
      acc.reverse :: splitSentencesAux rest []
    else splitSentencesAux rest (c :: acc)

/-- `splitSentences` from `claimDetector.mjs`. -/
def splitSentences (text : List Char) : List (List Char) :=
  ((splitSentencesAux (collapseWs text) []).map trimWs).filter fun s => s ≠ []

/-- A candidate claim produced by `detectClaims`. -/
structure Candidate where
  text : List Char
  score : ℚ
  reasons : List String
  chunkStartSec : ℚ
  category : String
  claimTypeTag : String
  claimTypeConfidence : ℚ
deriving DecidableEq, Repr

/-- Options of `detectClaims`. -/
structure DetectOptions where
  threshold : Option ℚ := none
  chunkStartSec : Option ℚ := none
deriving DecidableEq, Repr

/-- The leading-bullet strip `sentence.replace(/^[-•\s]+/, '')`. -/
def stripBullets (sentence : List Char) : List Char :=
  sentence.dropWhile fun c => c = '-' || c = '•' || isJsWs c

/-- The loop body of `detectClaims`: `seen` carries the lowercased keys of
the candidates already emitted. -/
def detectClaimsGo (threshold chunkStartSec : ℚ) :
    List (List Char) → List (List Char) → List Candidate
  | [], _ => []
  | sentence :: rest, seen =>
    let cleaned := trimWs (stripBullets sentence)
    if cleaned.length < 20 then detectClaimsGo threshold chunkStartSec rest seen
    else
      let key := lowerList cleaned
      if key ∈ seen then detectClaimsGo threshold chunkStartSec rest seen
      else
        let (score, reasons) := scoreSentence cleaned
        if score < threshold then detectClaimsGo threshold chunkStartSec rest seen
        else
          { text := cleaned
            score := score
            reasons := reasons
            chunkStartSec := chunkStartSec
            category := categorizeClaim cleaned
            claimTypeTag := classifyClaimType cleaned reasons
            claimTypeConfidence := round2 score } ::
          detectClaimsGo threshold chunkStartSec rest (key :: seen)

/-- `detectClaims` from `claimDetector.mjs`. -/
def detectClaims (text : List Char) (options : DetectOptions) : List Candidate :=
  let threshold := options.threshold.getD (11/20)
  let chunkStartSec := options.chunkStartSec.getD 0
  detectClaimsGo threshold chunkStartSec (splitSentences text) []

/-! ### Fixtures used by the concrete witnesses and counterexamples -/

/-- The six downstream event types gated on approval and `approvedVersion`. -/
def packageRenderTypes : List String :=
  ["claim.output_package_queued", "claim.output_package_ready",
   "claim.output_package_failed", "claim.render_queued", "claim.render_ready",
   "claim.render_failed"]

/-- An approved, researched snapshot with populated downstream fields. -/
def sampleApprovedRow : ClaimRow :=
  { claimId := "c1"
    runId := some "run-1"
    claim := some "The deficit fell by half."
    status := some "researched"
    verdict := some "true"
    confidence := some (11/20)
    summary := some "fact-check summary"
    sources := some [{ publisher := some "AP", url := some "https://ap.example/a",
                       textualRating := some "True" }]
    claimCategory := some "general"
    claimTypeTag := some "numeric_factual"
    claimTypeConfidence := some (11/20)
    googleEvidenceState := some "matched"
    fredEvidenceState := some "not_applicable"
    outputApprovalState := some "approved"
    outputPackageStatus := some "ready"
    outputPackageId := some "pkg-1"
    renderStatus := some "ready"
    renderJobId := some "job-1"
    artifactUrl := some "https://cdn.example/art.png"
    approvedAt := some "2026-01-01T00:00:00Z"
    approvedVersion := some 3
    detectedAt := some "2026-01-01T00:00:00Z"
    updatedAt := some "2026-01-01T00:00:00Z"
    version := 3 }

/-- A store holding `sampleApprovedRow` under id `c1` for run `run-1`. -/
def sampleStore : ServerState :=
  { currentRunId := some "run-1"
    eventSeq := 5
    claims := setClaim (fun _ => none) "c1" sampleApprovedRow }

/-- A content-changing `claim.updated` event for `c1`. -/
def sampleUpdateEvent : ClaimEvent :=
  { type := "claim.updated"
    runId := some "run-1"
    claimId := "c1"
    atTime := some "2026-01-01T00:05:00Z"
    status := some "researched"
    verdict := some "false"
    confidence := some (4/5)
    summary := some "updated summary"
    sources := some [] }

/-- A `claim.output_package_queued` event for `c1` with no `claimVersion`. -/
def samplePackageEvent : ClaimEvent :=
  { type := "claim.output_package_queued"
    runId := some "run-1"
    claimId := "c1"
    atTime := some "2026-01-01T00:06:00Z"
    packageId := some "pkg-2" }

/-- A `pipeline.started` event establishing run `run-1`. -/
def startEvent : ClaimEvent :=
  { type := "pipeline.started", runId := some "run-1" }

/-- A `claim.updated` event for an id never seen before. -/
def updateUnknownEvent : ClaimEvent :=
  { type := "claim.updated"
    runId := some "run-1"
    claimId := "c9"
    atTime := some "2026-01-01T00:01:00Z"
    claim := some "Crime fell 50 percent."
    status := some "researched"
    verdict := some "unverified"
    confidence := some (1/2)
    sources := some [] }

/-- A `claim.detected` event for `c9`. -/
def detectEvent : ClaimEvent :=
  { type := "claim.detected"
    runId := some "run-1"
    claimId := "c9"
    atTime := some "2026-01-01T00:00:30Z"
    claim := some "Crime fell 50 percent."
    status := some "pending_research"
    confidence := some (7/10) }

/-- A `claim.output_package_queued` event for `c9` (which is never approved
in the counterexample run). -/
def packageEventC9 : ClaimEvent :=
  { type := "claim.output_package_queued"
    runId := some "run-1"
    claimId := "c9"
    atTime := some "2026-01-01T00:02:00Z"
    packageId := some "pkg-9"
    claimVersion := some 1 }

/-- A store for run `run-1` with no claims yet. -/
def emptyRunStore : ServerState :=
  { currentRunId := some "run-1" }

/-- An economic claim whose FRED provider is in `error` state but that
otherwise satisfies every below-threshold premise. -/
def economicDegradedRow : ClaimRow :=
  { claimId := "c2"
    status := some "researched"
    claimTypeTag := some "numeric_factual"
    outputApprovalState := some "pending"
    googleEvidenceState := some "none"
    claimCategory := some "economic"
    fredEvidenceState := some "error"
    confidence := some (11/20)
    sources := some [{ publisher := some "AP", textualRating := some "False" }] }

/-- A pending `numeric_factual` claim with two agreeing sources and
confidence 0.55 (below the 0.60 threshold). -/
def pendingBelowThresholdRow : ClaimRow :=
  { claimId := "c3"
    status := some "researched"
    claimTypeTag := some "numeric_factual"
    outputApprovalState := some "pending"
    googleEvidenceState := some "matched"
    claimCategory := some "general"
    confidence := some (11/20)
    sources := some [{ publisher := some "AP", textualRating := some "False" },
                     { publisher := some "Reuters", textualRating := some "False" }] }

/-- Evidence with only a matched FRED state. -/
def fredMatchedEvidence : Evidence :=
  { fred := some { state := some "matched" } }

/-- A raw verifier output with confidence 0.9. -/
def highConfidenceRaw : RawVerdict :=
  { aiVerdict := some "true"
    aiConfidence := some (9/10)
    aiSummary := some "supported by data"
    evidenceBasis := some "fred_data" }

/-- A sentence scoring 0.55: digit (+0.45) and eight-plus tokens (+0.10),
no comparative, no claim keyword. -/
def catText : List Char :=
  "My cat sat on 3 very soft warm mats yesterday.".toList

/-- The candidate `detectClaims` produces for `catText`. -/
def catCandidate : Candidate :=
  { text := catText
    score := 11/20
    reasons := ["contains_number", "sufficient_length"]
    chunkStartSec := 0
    category := "general"
    claimTypeTag := "numeric_factual"
    claimTypeConfidence := 11/20 }

unseal Rat.mul Rat.inv Rat.add Rat.sub Rat.ofScientific

/-! ### General lemmas -/

theorem listStartsWith_iff (hay pat : List Char) :
    listStartsWith hay pat = true ↔ pat <+: hay := by
  induction pat generalizing hay with
  | nil => simp [listStartsWith]
  | cons p ps ih =>
    cases hay with
    | nil => simp [listStartsWith]
    | cons h hs =>
      simp only [listStartsWith, Bool.and_eq_true, decide_eq_true_eq, ih,
        List.cons_prefix_cons]
      tauto

theorem containsSub_iff (hay pat : List Char) :
    containsSub hay pat = true ↔ pat <:+: hay := by
  induction hay with
  | nil => simp [containsSub, List.isEmpty_iff]
  | cons h t ih =>
    simp only [containsSub, Bool.or_eq_true, listStartsWith_iff, ih,
      List.infix_cons_iff]

theorem containsSub_trans {a b c : List Char} (hab : containsSub a b = true)
    (hbc : containsSub b c = true) : containsSub a c = true :=
  (containsSub_iff a c).mpr (((containsSub_iff b c).mp hbc).trans
    ((containsSub_iff a b).mp hab))

theorem containsSub_ne_nil {hay pat : List Char} (h : containsSub hay pat = true)
    (hpat : pat ≠ []) : hay ≠ [] := by
  cases hay with
  | nil =>
    cases pat with
    | nil => exact absurd rfl hpat
    | cons p ps => simp [containsSub] at h
  | cons x xs => simp

theorem jsMin_eq (a b : ℚ) : jsMin a b = min a b := by
  rw [jsMin, min_def]

theorem jsMax_eq (a b : ℚ) : jsMax a b = max a b := by
  rw [jsMax, max_def]

theorem jsFloor_eq (q : ℚ) : jsFloor q = ⌊q⌋ := by
  rw [Rat.floor_def]; rfl

theorem setClaim_same (m : String → Option ClaimRow) (k : String) (v : ClaimRow) :
    setClaim m k v k = some v := by
  simp [setClaim]

theorem withPolicy_version (c : ClaimRow) : (withPolicy c).version = c.version := rfl

example : normalizeVerdict "Mostly false" = "false" := by decide
example : normalizeVerdict "Pants on Fire!" = "false" := by decide
example : normalizeVerdict "Half True" = "misleading" := by decide

/-! ### C5: fact-check verdict normalizer -/

/-- C5 counterexample: `normalizeVerdict` tests the false bucket first and
`'mostly false'`/`'partly false'` contain `'false'`, so they map to `false`,
not `misleading`; a rating containing `'mostly true'` together with a
misleading-vocabulary word maps to `misleading`, not `true`. -/
theorem normalizeVerdict_bucket_counterexample :
    normalizeVerdict "Mostly false" = "false" ∧
    normalizeVerdict "Partly false" = "false" ∧
    normalizeVerdict "Mostly true, but missing context" = "misleading" := by
  decide

/-- C5 (amended): `normalizeVerdict` tests the false, misleading and true
vocabularies in that order on the lowercased whitespace-compacted rating;
any rating containing `'mostly false'` or `'partly false'` therefore maps to
`'false'`; a rating containing `'mostly true'` maps to `'true'` only when no
false- or misleading-vocabulary word occurs in it; ratings containing no
vocabulary word map to `'unverified'`. -/
theorem normalizeVerdict_bucket_order (s : String) :
    (containsSub (compactWhitespace (lowerList s.toList)) "mostly false".toList = true →
      normalizeVerdict s = "false") ∧
    (containsSub (compactWhitespace (lowerList s.toList)) "partly false".toList = true →
      normalizeVerdict s = "false") ∧
    (normalizeVerdictFalseWords.any
        (fun w => containsSub (compactWhitespace (lowerList s.toList)) w) = false →
      normalizeVerdictMisleadingWords.any
        (fun w => containsSub (compactWhitespace (lowerList s.toList)) w) = false →
      containsSub (compactWhitespace (lowerList s.toList)) "mostly true".toList = true →
      normalizeVerdict s = "true") ∧
    (normalizeVerdictFalseWords.any
        (fun w => containsSub (compactWhitespace (lowerList s.toList)) w) = false →
      normalizeVerdictMisleadingWords.any
        (fun w => containsSub (compactWhitespace (lowerList s.toList)) w) = false →
      normalizeVerdictTrueWords.any
        (fun w => containsSub (compactWhitespace (lowerList s.toList)) w) = false →
      normalizeVerdict s = "unverified") := by
  refine ⟨?_, ?_, ?_, ?_⟩
  · intro h
    have hfalse : containsSub (compactWhitespace (lowerList s.toList)) "false".toList = true :=
      containsSub_trans h (by decide)
    have hany : (normalizeVerdictFalseWords.any
        fun w => containsSub (compactWhitespace (lowerList s.toList)) w) = true :=
      List.any_eq_true.mpr ⟨"false".toList, by decide, hfalse⟩
    have hne : compactWhitespace (lowerList s.toList) ≠ [] :=
      containsSub_ne_nil h (by decide)
    simp only [normalizeVerdict]
    rw [if_neg hne, if_pos hany]
  · intro h
    have hfalse : containsSub (compactWhitespace (lowerList s.toList)) "false".toList = true :=
      containsSub_trans h (by decide)
    have hany : (normalizeVerdictFalseWords.any
        fun w => containsSub (compactWhitespace (lowerList s.toList)) w) = true :=
      List.any_eq_true.mpr ⟨"false".toList, by decide, hfalse⟩
    have hne : compactWhitespace (lowerList s.toList) ≠ [] :=
      containsSub_ne_nil h (by decide)
    simp only [normalizeVerdict]
    rw [if_neg hne, if_pos hany]
  · intro hf hm h
    have htrue : containsSub (compactWhitespace (lowerList s.toList)) "true".toList = true :=
      containsSub_trans h (by decide)
    have hany : (normalizeVerdictTrueWords.any
        fun w => containsSub (compactWhitespace (lowerList s.toList)) w) = true :=
      List.any_eq_true.mpr ⟨"true".toList, by decide, htrue⟩
    have hne : compactWhitespace (lowerList s.toList) ≠ [] :=
      containsSub_ne_nil h (by decide)
    simp only [normalizeVerdict]
    rw [if_neg hne, if_neg (by rw [hf]; exact Bool.false_ne_true),
      if_neg (by rw [hm]; exact Bool.false_ne_true), if_pos hany]
  · intro hf hm ht
    simp only [normalizeVerdict]
    by_cases hne : compactWhitespace (lowerList s.toList) = []
    · rw [if_pos hne]
    · rw [if_neg hne, if_neg (by rw [hf]; exact Bool.false_ne_true),
        if_neg (by rw [hm]; exact Bool.false_ne_true),
        if_neg (by rw [ht]; exact Bool.false_ne_true)]

/-- Witness for `normalizeVerdict_bucket_order` at concrete ratings. -/
theorem normalizeVerdict_bucket_order_witness :
    normalizeVerdict "It is mostly false." = "false" ∧
    normalizeVerdict "100% TRUE, mostly true" = "true" ∧
    normalizeVerdict "Satire" = "unverified" :=
  ⟨(normalizeVerdict_bucket_order "It is mostly false.").1 (by decide),
   (normalizeVerdict_bucket_order "100% TRUE, mostly true").2.2.1
     (by decide) (by decide) (by decide),
   (normalizeVerdict_bucket_order "Satire").2.2.2 (by decide) (by decide) (by decide)⟩

/-! ### C6 and C7: Gemini verifier -/

/-- C6: when no evidence source is classified (fact-check verdict unverified
or absent, FRED not matched, Congress not matched), the post-processed
`aiConfidence` is at most 0.65; when any evidence condition holds, the
model's confidence passes through unchanged apart from the `[0, 1]` clamp of
`normalizeResult`. -/
theorem clampConfidence_evidence_cap (raw : RawVerdict) (e : Evidence) :
    ((hasGoogleFc e || hasFred e || hasCongress e) = false →
      (clampConfidence (normalizeResult raw) e).aiConfidence ≤ 13/20) ∧
    ((hasGoogleFc e || hasFred e || hasCongress e) = true →
      (clampConfidence (normalizeResult raw) e).aiConfidence =
        (match raw.aiConfidence with
          | some q => jsMax 0 (jsMin 1 q)
          | none => 0)) := by
  constructor
  · intro h
    obtain ⟨⟨hg, hf⟩, hc⟩ : (hasGoogleFc e = false ∧ hasFred e = false) ∧
        hasCongress e = false := by
      constructor
      · constructor
        · cases hgv : hasGoogleFc e <;> simp [hgv] at h ⊢
        · cases hfv : hasFred e <;> simp [hfv] at h ⊢
      · cases hcv : hasCongress e <;> simp [hcv] at h ⊢
    by_cases hconf : (normalizeResult raw).aiConfidence > 13/20
    · simp [clampConfidence, hg, hf, hc, hconf]
    · simp only [clampConfidence, hg, hf, hc]
      simp [hconf]
      linarith [le_of_not_lt hconf]
  · intro h
    have hcond : (!hasGoogleFc e && !hasFred e && !hasCongress e &&
        decide ((normalizeResult raw).aiConfidence > 13/20)) = false := by
      cases hgv : hasGoogleFc e <;> cases hfv : hasFred e <;>
        cases hcv : hasCongress e <;> simp_all
    have hpass : (clampConfidence (normalizeResult raw) e).aiConfidence =
        (normalizeResult raw).aiConfidence := by
      simp [clampConfidence, hcond]
    rw [hpass]
    cases hrc : raw.aiConfidence <;> simp [normalizeResult, hrc]

/-- Witness for `clampConfidence_evidence_cap`: cap applied with no
evidence, pass-through with matched FRED evidence. -/
theorem clampConfidence_evidence_cap_witness :
    (clampConfidence (normalizeResult highConfidenceRaw) {}).aiConfidence ≤ 13/20 ∧
    (clampConfidence (normalizeResult highConfidenceRaw) fredMatchedEvidence).aiConfidence =
      jsMax 0 (jsMin 1 (9/10)) :=
  ⟨(clampConfidence_evidence_cap highConfidenceRaw {}).1 (by decide),
   (clampConfidence_evidence_cap highConfidenceRaw fredMatchedEvidence).2 (by decide)⟩

/-- C7: `verifyClaim` returns the exact safe fallback for every failure mode
(missing key, invalid claim text, non-abort network error, non-2xx response,
unparsable body, missing or empty output text, unparsable output text), and
rethrows `AbortError` whenever the fetch is reached and aborts. -/
theorem verifyClaim_fallback_and_abort (apiKey : Option String) (claimText : JsText)
    (evidence : Evidence) (f : FetchOutcome) :
    ((apiKey.getD "" = "" ∨ claimTextAccepted claimText = false ∨
      f = .otherError ∨ (∃ body, f = .success false body) ∨
      f = .success true none ∨
      (∃ b, f = .success true (some b) ∧
        (strTrim (b.outputText.getD "") = "" ∨ b.parsedOutput = none))) →
      verifyClaim apiKey claimText evidence f = .ok SAFE_FALLBACK) ∧
    (apiKey.getD "" ≠ "" → claimTextAccepted claimText = true → f = .abortError →
      verifyClaim apiKey claimText evidence f = .error ()) := by
  constructor
  · intro h
    by_cases hk : apiKey.getD "" = ""
    · simp [verifyClaim, hk]
    · by_cases hct : claimTextAccepted claimText = true
      · rcases h with h | h | h | ⟨body, h⟩ | h | ⟨b, h, hb⟩
        · exact absurd h hk
        · rw [hct] at h; exact absurd h (by simp)
        · subst h; simp [verifyClaim, hk, hct]
        · subst h; simp [verifyClaim, hk, hct]
        · subst h; simp [verifyClaim, hk, hct]
        · subst h
          rcases hb with hb | hb
          · cases hot : b.outputText with
            | none => simp [verifyClaim, hk, hct, hot]
            | some t =>
              rw [hot] at hb
              simp only [Option.getD_some] at hb
              simp [verifyClaim, hk, hct, hot, hb]
          · cases hot : b.outputText with
            | none => simp [verifyClaim, hk, hct, hot]
            | some t =>
              by_cases htr : strTrim t = ""
              · simp [verifyClaim, hk, hct, hot, htr]
              · simp [verifyClaim, hk, hct, hot, htr, hb]
      · have hct' : claimTextAccepted claimText = false := by
          cases hcv : claimTextAccepted claimText
          · rfl
          · exact absurd hcv hct
        simp [verifyClaim, hk, hct']
  · intro hk hct hf
    subst hf
    simp [verifyClaim, hk, hct]

/-- Witness for `verifyClaim_fallback_and_abort`: a network error yields the
safe fallback; an abort with valid inputs is rethrown. -/
theorem verifyClaim_fallback_and_abort_witness :
    verifyClaim none (.str "The deficit fell in 2024.") {} .otherError = .ok SAFE_FALLBACK ∧
    verifyClaim (some "key") (.str "The deficit fell in 2024.") {} .abortError = .error () :=
  ⟨(verifyClaim_fallback_and_abort none (.str "The deficit fell in 2024.") {}
      .otherError).1 (Or.inl (by decide)),
   (verifyClaim_fallback_and_abort (some "key") (.str "The deficit fell in 2024.") {}
      .abortError).2 (by decide) (by decide) rfl⟩

/-! ### C8: reconnect backoff bounds -/

/-- C8 counterexample: with the default base 1000 ms and cap 15000 ms, at
attempt 6 the computed delay is 15000 ms (for zero jitter), strictly below
the claimed lower endpoint `max(250, base·2^(n−1)) = 32000`. -/
theorem computeReconnectDelayMs_counterexample :
    computeReconnectDelayMs 1000 15000 6 0 = 15000 ∧
    (15000 : ℚ) < (1000 : ℚ) * 2 ^ (6 - 1) ∧
    (1000 : ℚ) * 2 ^ (6 - 1) ≤ max 250 ((1000 : ℚ) * 2 ^ (6 - 1)) :=
  ⟨by decide, by norm_num, le_max_right _ _⟩

/-- C8 (amended): for every attempt `n ≥ 1` and every jitter draw
`r ∈ [0, 1)`, the computed delay lies in
`[max(250, min(maxMs, base·2^(n−1))), min(maxMs·1.2, base·2^(n−1)·1.2) + 500]`
— the claimed interval with the lower endpoint capped at `maxMs`, matching
the code's `backoff = min(maxMs, base·2^(n−1))`. -/
theorem computeReconnectDelayMs_bounds (base maxMs n : ℕ) (r : ℚ)
    (hn : 1 ≤ n) (hr0 : 0 ≤ r) (hr1 : r < 1) :
    max 250 ((min maxMs (base * 2 ^ (n - 1)) : ℕ) : ℚ) ≤
      computeReconnectDelayMs base maxMs n r ∧
    computeReconnectDelayMs base maxMs n r ≤
      min ((maxMs : ℚ) * (6/5)) ((base : ℚ) * 2 ^ (n - 1) * (6/5)) + 500 := by
  have _hn := hn
  simp only [computeReconnectDelayMs, jsMax_eq, jsMin_eq]
  set b : ℕ := min maxMs (base * 2 ^ (n - 1)) with hb
  set bound : ℚ := min 500 (max 80 ((b : ℚ) * (1/5))) with hbound
  have hb0 : (0 : ℚ) ≤ (b : ℚ) := by positivity
  have hbound80 : (80 : ℚ) ≤ bound := by
    rw [hbound]
    exact le_min (by norm_num) (le_max_left _ _)
  have hbound500 : bound ≤ 500 := min_le_left _ _
  have hboundpos : (0 : ℚ) < bound := lt_of_lt_of_le (by norm_num) hbound80
  have hj0 : (0 : ℤ) ≤ jsFloor (r * bound) := by
    rw [jsFloor_eq]
    exact Int.floor_nonneg.mpr (mul_nonneg hr0 (le_of_lt hboundpos))
  have hjlt : ((jsFloor (r * bound) : ℤ) : ℚ) < bound := by
    rw [jsFloor_eq]
    calc ((⌊r * bound⌋ : ℤ) : ℚ) ≤ r * bound := Int.floor_le _
    _ < 1 * bound := by
        exact mul_lt_mul_of_pos_right hr1 hboundpos
    _ = bound := one_mul bound
  constructor
  · apply max_le_max (le_refl (250 : ℚ))
    have : (0 : ℚ) ≤ ((jsFloor (r * bound) : ℤ) : ℚ) := by exact_mod_cast hj0
    linarith
  · have hmuls : min ((maxMs : ℚ) * (6/5)) ((base : ℚ) * 2 ^ (n - 1) * (6/5)) =
        (b : ℚ) * (6/5) := by
      rw [hb]
      push_cast [Nat.cast_min]
      rw [min_mul_of_nonneg _ _ (by norm_num : (0:ℚ) ≤ 6/5)]
    rw [hmuls]
    apply max_le
    · linarith
    · have hjle : ((jsFloor (r * bound) : ℤ) : ℚ) < 500 :=
        lt_of_lt_of_le hjlt hbound500
      linarith

/-- Witness for `computeReconnectDelayMs_bounds` at attempt 1 with the
default base/cap and a mid-range jitter draw. -/
theorem computeReconnectDelayMs_bounds_witness :
    max 250 ((min 15000 (1000 * 2 ^ (1 - 1)) : ℕ) : ℚ) ≤
      computeReconnectDelayMs 1000 15000 1 (1/2) ∧
    computeReconnectDelayMs 1000 15000 1 (1/2) ≤
      min ((15000 : ℚ) * (6/5)) ((1000 : ℚ) * 2 ^ (1 - 1) * (6/5)) + 500 :=
  computeReconnectDelayMs_bounds 1000 15000 1 (1/2) (by norm_num) (by norm_num)
    (by norm_num)

/-! ### C9: claim detector threshold semantics -/

theorem detectClaimsGo_mem_score (t c : ℚ) (sentences : List (List Char)) :
    ∀ seen cand, cand ∈ detectClaimsGo t c sentences seen →
      t ≤ cand.score ∧ 20 ≤ cand.text.length := by
  induction sentences with
  | nil => intro seen cand h; simp [detectClaimsGo] at h
  | cons s rest ih =>
    intro seen cand h
    rw [detectClaimsGo] at h
    by_cases h1 : (trimWs (stripBullets s)).length < 20
    · rw [if_pos h1] at h
      exact ih seen cand h
    · rw [if_neg h1] at h
      by_cases h2 : lowerList (trimWs (stripBullets s)) ∈ seen
      · rw [if_pos h2] at h
        exact ih seen cand h
      · rw [if_neg h2] at h
        rcases hsr : scoreSentence (trimWs (stripBullets s)) with ⟨sc, rs⟩
        simp only [hsr] at h
        by_cases h3 : sc < t
        · rw [if_pos h3] at h
          exact ih _ cand h
        · rw [if_neg h3] at h
          rcases List.mem_cons.mp h with hc | hc
          · subst hc
            exact ⟨le_of_not_lt h3, le_of_not_lt h1⟩
          · exact ih _ cand hc

theorem detectClaimsGo_keys (t c : ℚ) (sentences : List (List Char)) :
    ∀ seen, (∀ cand ∈ detectClaimsGo t c sentences seen, lowerList cand.text ∉ seen) ∧
      (detectClaimsGo t c sentences seen).Pairwise
        (fun a b => lowerList a.text ≠ lowerList b.text) := by
  induction sentences with
  | nil => intro seen; simp [detectClaimsGo]
  | cons s rest ih =>
    intro seen
    rw [detectClaimsGo]
    by_cases h1 : (trimWs (stripBullets s)).length < 20
    · rw [if_pos h1]; exact ih seen
    · rw [if_neg h1]
      by_cases h2 : lowerList (trimWs (stripBullets s)) ∈ seen
      · rw [if_pos h2]; exact ih seen
      · rw [if_neg h2]
        rcases hsr : scoreSentence (trimWs (stripBullets s)) with ⟨sc, rs⟩
        simp only [hsr]
        by_cases h3 : sc < t
        · rw [if_pos h3]; exact ih seen
        · rw [if_neg h3]
          constructor
          · intro cand hc
            rcases List.mem_cons.mp hc with hcand | hcand
            · subst hcand; exact h2
            · intro hmem
              exact (ih (lowerList (trimWs (stripBullets s)) :: seen)).1 cand hcand
                (List.mem_cons_of_mem _ hmem)
          · refine List.Pairwise.cons ?_ (ih _).2
            intro b hb
            have := (ih (lowerList (trimWs (stripBullets s)) :: seen)).1 b hb
            intro heq
            exact this (heq ▸ List.mem_cons_self _ _)

/-- C9 (amended): every candidate returned by `detectClaims` has score at
least the threshold option (defaulting to 0.55, not 0.62) and cleaned text
of length at least 20; returned candidates are pairwise distinct under
lowercasing; omitting the threshold behaves exactly like passing 0.55; the
0.55–0.9 clamp with default 0.62 lives in the pipeline's
`claimDetectionThreshold` configuration, not in `detectClaims`. -/
theorem detectClaims_threshold_semantics (text : List Char) (options : DetectOptions)
    (configured : Option ℚ) :
    (∀ cand ∈ detectClaims text options,
        options.threshold.getD (11/20) ≤ cand.score ∧ 20 ≤ cand.text.length) ∧
    (detectClaims text options).Pairwise
      (fun a b => lowerList a.text ≠ lowerList b.text) ∧
    detectClaims text { options with threshold := none } =
      detectClaims text { options with threshold := some (11/20) } ∧
    11/20 ≤ claimDetectionThreshold configured ∧
    claimDetectionThreshold configured ≤ 9/10 ∧
    claimDetectionThreshold none = 62/100 := by
  refine ⟨?_, ?_, ?_, ?_, ?_, ?_⟩
  · intro cand h
    exact detectClaimsGo_mem_score _ _ (splitSentences text) [] cand h
  · exact (detectClaimsGo_keys _ _ (splitSentences text) []).2
  · rfl
  · rw [claimDetectionThreshold, jsMax_eq]
    exact le_max_left _ _
  · rw [claimDetectionThreshold, jsMax_eq, jsMin_eq]
    exact max_le (by norm_num) (min_le_left _ _)
  · decide

/-- C9 counterexample: with no threshold supplied, `detectClaims` keeps a
candidate scoring 0.55, which a 0.62 default would have discarded (and no
clamping happens inside `detectClaims`). -/
theorem detectClaims_default_threshold_counterexample :
    detectClaims catText {} = [catCandidate] ∧
    catCandidate.score = 11/20 ∧ (11/20 : ℚ) < 62/100 := by
  refine ⟨by decide, rfl, by norm_num⟩

/-- Witness for `detectClaims_threshold_semantics` at a concrete text and
candidate. -/
theorem detectClaims_threshold_semantics_witness :
    (11/20 : ℚ) ≤ catCandidate.score ∧ 20 ≤ catCandidate.text.length :=
  (detectClaims_threshold_semantics catText {} none).1 catCandidate (by decide)

/-! ### C1 and C10: the claim.updated merge rule -/

/-- C1: applying a `claim.updated` event (matching the run filter) to an
approved snapshot yields a snapshot that is `pending` with `approvedAt`,
`approvedVersion`, `outputPackageId`, `artifactUrl` and `renderJobId` all
null and `outputPackageStatus` / `renderStatus` reset to `none`, in the same
mutation. -/
theorem claim_updated_resets_approval (s : ServerState) (e : ClaimEvent) (x : ClaimRow)
    (hx : s.claims e.claimId = some x)
    (happ : x.outputApprovalState = some "approved")
    (htype : e.type = "claim.updated")
    (hgate : gateDrop s e = false) :
    ∃ y, (updateClaimState s e).claims e.claimId = some y ∧
      y.outputApprovalState = some "pending" ∧
      y.approvedAt = none ∧ y.approvedVersion = none ∧
      y.outputPackageId = none ∧ y.artifactUrl = none ∧ y.renderJobId = none ∧
      y.outputPackageStatus = some "none" ∧ y.renderStatus = some "none" := by
  refine ⟨withPolicy (claimUpdatedRow s e), ?_, ?_⟩
  · simp [updateClaimState, hgate, htype, setClaim_same]
  · have hwa : ((s.claims e.claimId).bind (·.outputApprovalState)) = some "approved" := by
      rw [hx]; exact happ
    simp [withPolicy, claimUpdatedRow, hwa]

/-- Witness for `claim_updated_resets_approval` on the sample approved
store. -/
theorem claim_updated_resets_approval_witness :
    ∃ y, (updateClaimState sampleStore sampleUpdateEvent).claims
        sampleUpdateEvent.claimId = some y ∧
      y.outputApprovalState = some "pending" ∧
      y.approvedAt = none ∧ y.approvedVersion = none ∧
      y.outputPackageId = none ∧ y.artifactUrl = none ∧ y.renderJobId = none ∧
      y.outputPackageStatus = some "none" ∧ y.renderStatus = some "none" :=
  claim_updated_resets_approval sampleStore sampleUpdateEvent sampleApprovedRow
    (by decide) (by decide) rfl (by decide)

/-- C10: a `claim.updated` event for an unknown claim id creates a snapshot
(rather than dropping the event), initialized from the event's fields with
`outputApprovalState` `pending` and `version` 2 — so this claim's history
does not begin with a `claim.detected` event at version 1. -/
theorem claim_updated_creates_unknown_claim (s : ServerState) (e : ClaimEvent)
    (hnone : s.claims e.claimId = none)
    (htype : e.type = "claim.updated")
    (hgate : gateDrop s e = false) :
    ∃ y, (updateClaimState s e).claims e.claimId = some y ∧
      y.outputApprovalState = some "pending" ∧ y.version = 2 ∧
      y.status = e.status ∧ y.verdict = e.verdict ∧ y.confidence = e.confidence ∧
      y.claim = e.claim ∧ y.detectedAt = e.atTime := by
  refine ⟨withPolicy (claimUpdatedRow s e), ?_, ?_⟩
  · simp [updateClaimState, hgate, htype, setClaim_same]
  · simp [withPolicy, claimUpdatedRow, hnone]

/-- Witness for `claim_updated_creates_unknown_claim` on an empty run
store. -/
theorem claim_updated_creates_unknown_claim_witness :
    ∃ y, (updateClaimState emptyRunStore updateUnknownEvent).claims
        updateUnknownEvent.claimId = some y ∧
      y.outputApprovalState = some "pending" ∧ y.version = 2 ∧
      y.status = updateUnknownEvent.status ∧ y.verdict = updateUnknownEvent.verdict ∧
      y.confidence = updateUnknownEvent.confidence ∧
      y.claim = updateUnknownEvent.claim ∧ y.detectedAt = updateUnknownEvent.atTime :=
  claim_updated_creates_unknown_claim emptyRunStore updateUnknownEvent
    rfl rfl (by decide)

/-! ### C2: version gate on package/render events -/

/-- C2 counterexample: a `claim.output_package_queued` event with an absent
`claimVersion` mutates an approved snapshot whose `approvedVersion` is 3 —
the version gate only applies when both sides are integers. -/
theorem package_event_version_gate_counterexample :
    (updateClaimState sampleStore samplePackageEvent).claims "c1" ≠
      sampleStore.claims "c1" ∧
    samplePackageEvent.claimVersion = none ∧
    sampleApprovedRow.approvedVersion = some 3 ∧
    ((updateClaimState sampleStore samplePackageEvent).claims "c1").bind
      (·.outputPackageStatus) = some "queued" := by
  decide

/-- C2 (amended): a `claim.output_package_*` or `claim.render_*` event
leaves the claim snapshot unchanged unless the snapshot is `approved` and,
whenever both the event's `claimVersion` and the stored `approvedVersion`
are integers, they are equal; events with an absent or non-integer
`claimVersion` pass the version gate. -/
theorem package_render_version_gate (s : ServerState) (e : ClaimEvent)
    (htype : e.type ∈ packageRenderTypes)
    (hchange : (updateClaimState s e).claims e.claimId ≠ s.claims e.claimId) :
    ∃ x, s.claims e.claimId = some x ∧ x.outputApprovalState = some "approved" ∧
      (jsIsInteger e.claimVersion = true → jsIsInteger x.approvedVersion = true →
        e.claimVersion = x.approvedVersion) := by
  have hgate : gateDrop s e = false := by
    by_contra hg
    have hg' : gateDrop s e = true := by
      cases hgv : gateDrop s e
      · exact absurd hgv hg
      · rfl
    exact hchange (by simp [updateClaimState, hg'])
  simp only [packageRenderTypes, List.mem_cons, List.mem_singleton,
    List.not_mem_nil, or_false] at htype
  obtain h | h | h | h | h | h := htype <;>
  · cases hx : s.claims e.claimId with
    | none => exact absurd (by simp [updateClaimState, hgate, h, hx]) hchange
    | some x =>
      have happ : x.outputApprovalState = some "approved" := by
        by_contra hne
        exact hchange (by simp [updateClaimState, hgate, h, hx, hne])
      refine ⟨x, rfl, happ, ?_⟩
      intro h1 h2
      by_contra hne2
      have hmm : packageVersionMismatch x e = true := by
        simp [packageVersionMismatch, h1, h2, hne2]
      exact hchange (by simp [updateClaimState, hgate, h, hx, happ, hmm])

/-- Witness for `package_render_version_gate`: the package event with absent
`claimVersion` changes the approved sample snapshot, and the gate conditions
hold for it. -/
theorem package_render_version_gate_witness :
    ∃ x, sampleStore.claims samplePackageEvent.claimId = some x ∧
      x.outputApprovalState = some "approved" ∧
      (jsIsInteger samplePackageEvent.claimVersion = true →
        jsIsInteger x.approvedVersion = true →
        samplePackageEvent.claimVersion = x.approvedVersion) :=
  package_render_version_gate sampleStore samplePackageEvent
    (by decide) (by decide)

/-! ### C3: per-claim version behaviour of outgoing events -/

/-- C3 counterexample: in a run, a `claim.updated` for an unknown id makes
the first outgoing event for that claim a `claim.updated` whose embedded
snapshot has version 2 (not a `claim.detected` at version 1); and a gated
`claim.output_package_queued` repeats the previous embedded version instead
of increasing it. -/
theorem claim_event_version_counterexample :
    ((processEvents {} [startEvent, updateUnknownEvent]).2.map
        (fun o => (o.type, o.claimId, o.snapshot.map (·.version)))) =
      [("pipeline.started", "", none), ("claim.updated", "c9", some 2)] ∧
    ((processEvents {} [startEvent, detectEvent, packageEventC9]).2.map
        (fun o => (o.type, o.snapshot.map (·.version)))) =
      [("pipeline.started", none), ("claim.detected", some 1),
       ("claim.output_package_queued", some 1)] := by
  decide

/-- C3 (amended): each outgoing claim event embeds the post-update snapshot
(version included); one store step either leaves the claim's snapshot
untouched (gated or unknown-id events), inserts it at version 1
(`claim.detected`), increments the stored version by exactly 1 (every other
applied mutation), or — for a `claim.updated` with unknown id — creates the
snapshot at version 2. -/
theorem claim_event_version_step (s : ServerState) (e : ClaimEvent) :
    (isClaimEventType e.type = true → e.claimId ≠ "" →
      (emitEvent s e).2.snapshot = (emitEvent s e).1.claims e.claimId) ∧
    ((updateClaimState s e).claims e.claimId = s.claims e.claimId ∨
     (e.type = "claim.detected" ∧
       ∃ y, (updateClaimState s e).claims e.claimId = some y ∧ y.version = 1) ∨
     (∃ x y, s.claims e.claimId = some x ∧
       (updateClaimState s e).claims e.claimId = some y ∧ y.version = x.version + 1) ∨
     (s.claims e.claimId = none ∧ e.type = "claim.updated" ∧
       ∃ y, (updateClaimState s e).claims e.claimId = some y ∧ y.version = 2)) := by
  constructor
  · intro h1 h2
    simp [emitEvent, h1, h2]
  · by_cases hg : gateDrop s e = true
    · left; simp [updateClaimState, hg]
    · have hgate : gateDrop s e = false := by
        cases hgv : gateDrop s e
        · rfl
        · exact absurd hgv hg
      by_cases h1 : e.type = "claim.detected"
      · right; left
        exact ⟨h1, withPolicy (claimDetectedRow e),
          by simp [updateClaimState, hgate, h1, setClaim_same], rfl⟩
      by_cases h2 : e.type = "claim.researching"
      · cases hx : s.claims e.claimId with
        | none => left; simp [updateClaimState, hgate, h1, h2, hx]
        | some x =>
          right; right; left
          refine ⟨x, withPolicy
            { x with
              status := some "researching"
              updatedAt := e.atTime
              version := x.version + 1 }, rfl, ?_, rfl⟩
          simp [updateClaimState, hgate, h1, h2, hx, setClaim_same]
      by_cases h3 : e.type = "claim.updated"
      · cases hx : s.claims e.claimId with
        | none =>
          right; right; right
          refine ⟨rfl, h3, withPolicy (claimUpdatedRow s e), ?_, ?_⟩
          · simp [updateClaimState, hgate, h1, h2, h3, setClaim_same]
          · simp [withPolicy_version, claimUpdatedRow, hx]
        | some x =>
          right; right; left
          refine ⟨x, withPolicy (claimUpdatedRow s e), rfl, ?_, ?_⟩
          · simp [updateClaimState, hgate, h1, h2, h3, setClaim_same]
          · simp [withPolicy_version, claimUpdatedRow, hx]
      by_cases h4 : e.type = "claim.output_approved"
      · cases hx : s.claims e.claimId with
        | none => left; simp [updateClaimState, hgate, h1, h2, h3, h4, hx]
        | some x =>
          right; right; left
          refine ⟨x, withPolicy
            { x with
              outputApprovalState := some "approved"
              approvedAt := e.approvedAt <|> e.atTime
              approvedVersion := e.approvedVersion <|> some (nextClaimVersion x)
              rejectedAt := none
              updatedAt := e.atTime
              version := x.version + 1 }, rfl, ?_, rfl⟩
          simp [updateClaimState, hgate, h1, h2, h3, h4, hx, setClaim_same]
      by_cases h5 : e.type = "claim.output_rejected"
      · cases hx : s.claims e.claimId with
        | none => left; simp [updateClaimState, hgate, h1, h2, h3, h4, h5, hx]
        | some x =>
          right; right; left
          refine ⟨x, withPolicy
            { x with
              outputApprovalState := some "rejected"
              approvedAt := none
              approvedVersion := none
              rejectedAt := e.rejectedAt <|> e.atTime
              updatedAt := e.atTime
              version := x.version + 1 }, rfl, ?_, rfl⟩
          simp [updateClaimState, hgate, h1, h2, h3, h4, h5, hx, setClaim_same]
      by_cases h6 : e.type = "claim.output_package_queued"
      · cases hx : s.claims e.claimId with
        | none => left; simp [updateClaimState, hgate, h1, h2, h3, h4, h5, h6, hx]
        | some x =>
          by_cases happ : x.outputApprovalState = some "approved"
          · by_cases hmm : packageVersionMismatch x e = true
            · left
              simp [updateClaimState, hgate, h1, h2, h3, h4, h5, h6, hx, happ, hmm]
            · right; right; left
              refine ⟨x, withPolicy
                { x with
                  outputPackageStatus := some "queued"
                  outputPackageId := e.packageId <|> x.outputPackageId
                  outputPackageError := none
                  updatedAt := e.atTime
                  version := x.version + 1 }, rfl, ?_, rfl⟩
              simp [updateClaimState, hgate, h1, h2, h3, h4, h5, h6, hx, happ, hmm,
                setClaim_same]
          · left
            simp [updateClaimState, hgate, h1, h2, h3, h4, h5, h6, hx, happ]
      by_cases h7 : e.type = "claim.output_package_ready"
      · cases hx : s.claims e.claimId with
        | none => left; simp [updateClaimState, hgate, h1, h2, h3, h4, h5, h6, h7, hx]
        | some x =>
          by_cases happ : x.outputApprovalState = some "approved"
          · by_cases hmm : packageVersionMismatch x e = true
            · left
              simp [updateClaimState, hgate, h1, h2, h3, h4, h5, h6, h7, hx, happ, hmm]
            · right; right; left
              refine ⟨x, withPolicy
                { x with
                  outputPackageStatus := some "ready"
                  outputPackageId := e.packageId <|> x.outputPackageId
                  outputPackageError := none
                  updatedAt := e.atTime
                  version := x.version + 1 }, rfl, ?_, rfl⟩
              simp [updateClaimState, hgate, h1, h2, h3, h4, h5, h6, h7, hx, happ, hmm,
                setClaim_same]
          · left
            simp [updateClaimState, hgate, h1, h2, h3, h4, h5, h6, h7, hx, happ]
      by_cases h8 : e.type = "claim.output_package_failed"
      · cases hx : s.claims e.claimId with
        | none => left; simp [updateClaimState, hgate, h1, h2, h3, h4, h5, h6, h7, h8, hx]
        | some x =>
          by_cases happ : x.outputApprovalState = some "approved"
          · by_cases hmm : packageVersionMismatch x e = true
            · left
              simp [updateClaimState, hgate, h1, h2, h3, h4, h5, h6, h7, h8, hx, happ,
                hmm]
            · right; right; left
              refine ⟨x, withPolicy
                { x with
                  outputPackageStatus := some "failed"
                  outputPackageId := e.packageId <|> x.outputPackageId
                  outputPackageError := some (e.error.getD "Package generation failed")
                  updatedAt := e.atTime
                  version := x.version + 1 }, rfl, ?_, rfl⟩
              simp [updateClaimState, hgate, h1, h2, h3, h4, h5, h6, h7, h8, hx, happ,
                hmm, setClaim_same]
          · left
            simp [updateClaimState, hgate, h1, h2, h3, h4, h5, h6, h7, h8, hx, happ]
      by_cases h9 : e.type = "claim.render_queued"
      · cases hx : s.claims e.claimId with
        | none =>
          left; simp [updateClaimState, hgate, h1, h2, h3, h4, h5, h6, h7, h8, h9, hx]
        | some x =>
          by_cases happ : x.outputApprovalState = some "approved"
          · by_cases hmm : packageVersionMismatch x e = true
            · left
              simp [updateClaimState, hgate, h1, h2, h3, h4, h5, h6, h7, h8, h9, hx,
                happ, hmm]
            · right; right; left
              refine ⟨x, withPolicy
                { x with
                  renderStatus := some "queued"
                  renderJobId := e.renderJobId <|> x.renderJobId
                  renderError := none
                  updatedAt := e.atTime
                  version := x.version + 1 }, rfl, ?_, rfl⟩
              simp [updateClaimState, hgate, h1, h2, h3, h4, h5, h6, h7, h8, h9, hx,
                happ, hmm, setClaim_same]
          · left
            simp [updateClaimState, hgate, h1, h2, h3, h4, h5, h6, h7, h8, h9, hx, happ]
      by_cases h10 : e.type = "claim.render_ready"
      · cases hx : s.claims e.claimId with
        | none =>
          left
          simp [updateClaimState, hgate, h1, h2, h3, h4, h5, h6, h7, h8, h9, h10, hx]
        | some x =>
          by_cases happ : x.outputApprovalState = some "approved"
          · by_cases hmm : packageVersionMismatch x e = true
            · left
              simp [updateClaimState, hgate, h1, h2, h3, h4, h5, h6, h7, h8, h9, h10,
                hx, happ, hmm]
            · by_cases hjm : renderJobMismatch x e = true
              · left
                simp [updateClaimState, hgate, h1, h2, h3, h4, h5, h6, h7, h8, h9, h10,
                  hx, happ, hmm, hjm]
              · right; right; left
                refine ⟨x, withPolicy
                  { x with
                    renderStatus := some "ready"
                    renderJobId := e.renderJobId <|> x.renderJobId
                    artifactUrl := e.artifactUrl <|> x.artifactUrl
                    renderError := none
                    updatedAt := e.atTime
                    version := x.version + 1 }, rfl, ?_, rfl⟩
                simp [updateClaimState, hgate, h1, h2, h3, h4, h5, h6, h7, h8, h9, h10,
                  hx, happ, hmm, hjm, setClaim_same]
          · left
            simp [updateClaimState, hgate, h1, h2, h3, h4, h5, h6, h7, h8, h9, h10, hx,
              happ]
      by_cases h11 : e.type = "claim.render_failed"
      · cases hx : s.claims e.claimId with
        | none =>
          left
          simp [updateClaimState, hgate, h1, h2, h3, h4, h5, h6, h7, h8, h9, h10, h11,
            hx]
        | some x =>
          by_cases happ : x.outputApprovalState = some "approved"
          · by_cases hmm : packageVersionMismatch x e = true
            · left
              simp [updateClaimState, hgate, h1, h2, h3, h4, h5, h6, h7, h8, h9, h10,
                h11, hx, happ, hmm]
            · by_cases hjm : renderJobMismatch x e = true
              · left
                simp [updateClaimState, hgate, h1, h2, h3, h4, h5, h6, h7, h8, h9, h10,
                  h11, hx, happ, hmm, hjm]
              · right; right; left
                refine ⟨x, withPolicy
                  { x with
                    renderStatus := some "failed"
                    renderJobId := e.renderJobId <|> x.renderJobId
                    renderError := some (e.error.getD "Render job failed")
                    updatedAt := e.atTime
                    version := x.version + 1 }, rfl, ?_, rfl⟩
                simp [updateClaimState, hgate, h1, h2, h3, h4, h5, h6, h7, h8, h9, h10,
                  h11, hx, happ, hmm, hjm, setClaim_same]
          · left
            simp [updateClaimState, hgate, h1, h2, h3, h4, h5, h6, h7, h8, h9, h10, h11,
              hx, happ]
      · left
        simp [updateClaimState, hgate, h1, h2, h3, h4, h5, h6, h7, h8, h9, h10, h11]

/-- Witness for `claim_event_version_step`: the outgoing enriched
`claim.updated` event for the sample store embeds the post-update
snapshot. -/
theorem claim_event_version_step_witness :
    (emitEvent sampleStore sampleUpdateEvent).2.snapshot =
      (emitEvent sampleStore sampleUpdateEvent).1.claims sampleUpdateEvent.claimId :=
  (claim_event_version_step sampleStore sampleUpdateEvent).1 (by decide) (by decide)

/-! ### C4: below-threshold approval blocking -/

/-- C4 counterexample: an economic `numeric_factual` claim with
`fredEvidenceState = 'error'` and confidence 0.55 satisfies every premise of
the claim (researched, not rejected, Google not in error, one independent
source, no conflict, confidence below 0.60) yet the policy engine returns
`provider_degraded`, not `below_threshold`, and the endpoint's 409 carries
the provider-degraded message; moreover an already-approved claim with
confidence below threshold is answered with a 200 no-op, not a 409. -/
theorem below_threshold_counterexample :
    (evaluateClaimPolicy economicDegradedRow).approvalBlockReason =
      some "provider_degraded" ∧
    (evaluateClaimPolicy economicDegradedRow).approvalEligibility = false ∧
    approveOutputDecision economicDegradedRow = .blocked 409
      "Evidence provider is degraded. Keep this claim unapproved until evidence recovers." ∧
    approveOutputDecision sampleApprovedRow = .alreadyApproved := by
  decide

/-- C4 (amended): for a `numeric_factual` snapshot that is researched,
neither rejected nor approved, with Google evidence not in error, at least
one independent source, no evidence conflict, FRED not in error when the
claim is economic, and confidence strictly below 0.60, the policy engine
returns `below_threshold` with `approvalEligibility = false`, and the
approve-output handler answers 409 with the below-threshold message. -/
theorem below_threshold_blocks_approval (row : ClaimRow)
    (htag : row.claimTypeTag = some "numeric_factual")
    (hstatus : row.status = some "researched")
    (hnotRejected : row.outputApprovalState ≠ some "rejected")
    (hnotApproved : row.outputApprovalState ≠ some "approved")
    (hgoogle : row.googleEvidenceState.getD "none" ≠ "error")
    (hsources : 1 ≤ countIndependentSources (row.sources.getD []))
    (hconflict : hasConflictingEvidence (row.sources.getD []) = false)
    (hfred : ¬(row.claimCategory = some "economic" ∧
        row.fredEvidenceState.getD "not_applicable" = "error"))
    (hconf : row.confidence.getD 0 < 3/5) :
    (evaluateClaimPolicy row).approvalBlockReason = some "below_threshold" ∧
    (evaluateClaimPolicy row).approvalEligibility = false ∧
    approveOutputDecision row = .blocked 409
      "Claim confidence is below policy threshold for tag=numeric_factual." := by
  have hcount : ¬(countIndependentSources (row.sources.getD []) < 1) := by omega
  have hes : evidenceStatusForClaim row (countIndependentSources (row.sources.getD []))
      (hasConflictingEvidence (row.sources.getD [])) = "sufficient" := by
    by_cases hecon : row.claimCategory = some "economic"
    · have hfredNe : row.fredEvidenceState.getD "not_applicable" ≠ "error" :=
        fun h => hfred ⟨hecon, h⟩
      simp [evidenceStatusForClaim, hstatus, hconflict, hgoogle, hecon, hfredNe, hcount]
    · simp [evidenceStatusForClaim, hstatus, hconflict, hgoogle, hecon, hcount]
  have habr : (evaluateClaimPolicy row).approvalBlockReason = some "below_threshold" := by
    simp [evaluateClaimPolicy, htag, hstatus, hnotRejected, hes, hconf,
      reasonFromEvidenceStatus, normalizeTag, tagThreshold]
  have hel : (evaluateClaimPolicy row).approvalEligibility = false := by
    simp [evaluateClaimPolicy, htag, hstatus, hnotRejected, hes, hconf,
      reasonFromEvidenceStatus, normalizeTag, tagThreshold]
  have htagn : (evaluateClaimPolicy row).claimTypeTag = "numeric_factual" := by
    simp [evaluateClaimPolicy, htag, normalizeTag]
  refine ⟨habr, hel, ?_⟩
  have hmsg : policyBlockMessage "below_threshold" (some "numeric_factual") =
      "Claim confidence is below policy threshold for tag=numeric_factual." := by
    decide
  simp [approveOutputDecision, hnotApproved, withPolicy, habr, hel, htagn, hmsg]

/-- Witness for `below_threshold_blocks_approval` on a pending researched
`numeric_factual` claim with two agreeing sources and confidence 0.55. -/
theorem below_threshold_blocks_approval_witness :
    (evaluateClaimPolicy pendingBelowThresholdRow).approvalBlockReason =
      some "below_threshold" ∧
    (evaluateClaimPolicy pendingBelowThresholdRow).approvalEligibility = false ∧
    approveOutputDecision pendingBelowThresholdRow = .blocked 409
      "Claim confidence is below policy threshold for tag=numeric_factual." :=
  below_threshold_blocks_approval pendingBelowThresholdRow
    (by decide) (by decide) (by decide) (by decide) (by decide) (by decide)
    (by decide) (by decide) (by decide)
